import Mathlib

/-!
# Verification of the Clerk-to-WorkOS user migration tool

Shallow embedding of the migration tool's core (the `workos/migrate-clerk-users`
repository): the reconciler (`findOrCreateUser` / `processLine`), the CSV-row
normalizer (`mapCsvRowToUser` and its helpers in `user-export-stream.ts`), the
incremental JSON record source (`userExportStream`), the bounded-concurrency
dispatch engine built on `p-queue` in `main` (`index.ts`), and the error-report
writer.  The theorems at the end settle the frozen claims about this code.
-/

/-! ## JS string primitives

The importer uses JavaScript's `trim`, `toLowerCase`, `split` and
`replace(/"/g, ...)`.  They are modelled character-by-character over
`String.data` (the inputs here are plain ASCII) so that all definitions
evaluate by kernel reduction. -/

/-- JS `String.prototype.trim`: drop leading and trailing whitespace. -/
def jsTrim (s : String) : String :=
  ⟨((s.data.dropWhile Char.isWhitespace).reverse.dropWhile Char.isWhitespace).reverse⟩

/-- JS `String.prototype.toLowerCase` (ASCII). -/
def jsToLower (s : String) : String :=
  ⟨s.data.map Char.toLower⟩

/-- Helper for `splitChars`: split the remaining characters at every
character satisfying `p`, `acc` holding the current piece reversed. -/
def splitCharsAux (p : Char → Bool) : List Char → List Char → List String
  | acc, [] => [⟨acc.reverse⟩]
  | acc, c :: cs =>
      if p c then ⟨acc.reverse⟩ :: splitCharsAux p [] cs
      else splitCharsAux p (c :: acc) cs

/-- JS `String.prototype.split` at every character satisfying `p` (empty
pieces preserved; the empty string gives `[""]`). -/
def splitChars (p : Char → Bool) (s : String) : List String :=
  splitCharsAux p [] s.data

/-- JS `split("|")` (the Clerk multi-email separator). -/
def splitPipe (s : String) : List String :=
  splitChars (fun c => c = '|') s

/-! ## Reconciler data model

`ClerkExportedUser` follows the zod schema in `src/clerk-exported-user.ts`,
extended with the optional `primary_email_verified` boolean that the current
sources produce (`mapCsvRowToUser` sets it) and consume
(`shouldMarkEmailVerified` reads it); the README documents it as an optional
boolean on JSON input.  The three `*_metadata` record fields of the schema are
never consulted by any code modelled here and are omitted. -/

structure ClerkExportedUser where
  id : String
  first_name : Option String
  last_name : Option String
  username : Option String
  email_addresses : String
  phone_numbers : Option String
  totp_secret : Option String
  password_digest : Option String
  password_hasher : Option String
  primary_email_verified : Option Bool
  deriving DecidableEq

/-- The `--email-verified` CLI mode (`"never" | "always" | "from-csv"`). -/
inductive EmailVerifiedMode
  | never
  | always
  | fromCsv
  deriving DecidableEq

/-- `shouldMarkEmailVerified` from `index.ts`: `always` is unconditionally
true, `from-csv` checks `exportedUser.primary_email_verified === true`,
anything else is false. -/
def shouldMarkEmailVerified (exportedUser : ClerkExportedUser)
    (mode : EmailVerifiedMode) : Bool :=
  match mode with
  | EmailVerifiedMode.always => true
  | EmailVerifiedMode.fromCsv => exportedUser.primary_email_verified == some true
  | EmailVerifiedMode.never => false

/-- Result of one remote WorkOS call, as observed by the importer: a value,
an ordinary error (any non-rate-limit exception, carrying its message), or a
`RateLimitExceededException` carrying its optional `retryAfter` seconds. -/
inductive RemoteResult (α : Type)
  | ok (a : α)
  | err (msg : String)
  | rateLimited (retryAfter : Option Nat)
  deriving DecidableEq

/-- Oracle fixing how the remote service answers each of the (at most four)
calls a single `findOrCreateUser` run can make. -/
structure RemoteBehavior where
  /-- Answer of `workos.userManagement.createUser`, `ok` carries the new id. -/
  createResult : RemoteResult String
  /-- Answer of `workos.userManagement.listUsers`, `ok` carries the ids of the
  matching users (`matchingUsers.data`). -/
  listResult : RemoteResult (List String)
  /-- Answer of the `updateUser` call that sets the password hash. -/
  updatePasswordResult : RemoteResult Unit
  /-- Answer of the `updateUser` call that sets `emailVerified`. -/
  updateVerifyResult : RemoteResult Unit
  deriving DecidableEq

/-- One remote call issued by the reconciler, with the arguments the code
passes. -/
inductive RemoteCall
  | createUser (email : String) (firstName lastName : Option String)
      (passwordHash : Option String) (passwordHashType : Option String)
  | listUsers (email : String)
  | updateUserPassword (userId : String) (passwordHash : String)
      (passwordHashType : String)
  | updateUserEmailVerified (userId : String)
  deriving DecidableEq

/-- What `findOrCreateUser` does for one record: the distinct `return false`
of the multi-email skip, a returned user (created or existing), the implicit
`undefined` when the lookup finds zero or several matches, a propagated
`RateLimitExceededException`, or any other propagated exception. -/
inductive FOCResult
  | skippedMultiEmail
  | user (id : String)
  | noUser
  | throttle (retryAfter : Option Nat)
  | raised (msg : String)
  deriving DecidableEq

/-- JS truthiness of `exportedUser.password_digest` (null/undefined and the
empty string are falsy). -/
def passwordProvided (u : ClerkExportedUser) : Bool :=
  match u.password_digest with
  | some d => d != ""
  | none => false

/-- First entry of the pipe-separated `email_addresses` field
(`emailAddresses[0]` in the code; `String.splitOn` never returns `[]`). -/
def primaryEmail (u : ClerkExportedUser) : String :=
  (splitPipe u.email_addresses).headD ""

/-- The `emailVerified` update applied after a create or match, from
`index.ts`: it runs only when `shouldMarkEmailVerified` holds; a
`RateLimitExceededException` is rethrown (second component `some r`), any
other failure is a soft warning that leaves the outcome unchanged. -/
def verifyStep (u : ClerkExportedUser) (mode : EmailVerifiedMode)
    (remote : RemoteBehavior) (userId : String) :
    List RemoteCall × Option (Option Nat) :=
  if shouldMarkEmailVerified u mode then
    match remote.updateVerifyResult with
    | RemoteResult.rateLimited r => ([RemoteCall.updateUserEmailVerified userId], some r)
    | RemoteResult.ok _ => ([RemoteCall.updateUserEmailVerified userId], none)
    | RemoteResult.err _ => ([RemoteCall.updateUserEmailVerified userId], none)
  else ([], none)

/-- The password update applied to an existing matched user, from `index.ts`:
it runs only when a password digest is present, passes `"bcrypt"`
unconditionally, rethrows a `RateLimitExceededException` and soft-fails on any
other error. -/
def passwordUpdateStep (u : ClerkExportedUser) (remote : RemoteBehavior)
    (userId : String) : List RemoteCall × Option (Option Nat) :=
  if passwordProvided u then
    match remote.updatePasswordResult with
    | RemoteResult.rateLimited r =>
        ([RemoteCall.updateUserPassword userId (u.password_digest.getD "") "bcrypt"], some r)
    | RemoteResult.ok _ =>
        ([RemoteCall.updateUserPassword userId (u.password_digest.getD "") "bcrypt"], none)
    | RemoteResult.err _ =>
        ([RemoteCall.updateUserPassword userId (u.password_digest.getD "") "bcrypt"], none)
  else ([], none)

/-- `findOrCreateUser` from `index.ts`, instrumented with the list of remote
calls it makes.  Control flow follows the source: split the pipe-separated
emails and take the first; skip (returning the distinct `false`) when several
emails are present and multi-email processing is off; otherwise attempt
`createUser` (with `passwordHash`/`passwordHashType: "bcrypt"` iff a digest is
truthy); on create success run the verification step; on any non-rate-limit
create failure look up users by the lowercased primary email and, when exactly
one matches, run the password update then the verification step and return the
existing user; otherwise fall through with no user.  Rate limits are rethrown
at every step. -/
def findOrCreateUser (u : ClerkExportedUser) (processMultiEmail : Bool)
    (mode : EmailVerifiedMode) (remote : RemoteBehavior) :
    List RemoteCall × FOCResult :=
  let emailAddresses := splitPipe u.email_addresses
  let email := emailAddresses.headD ""
  if emailAddresses.length > 1 && !processMultiEmail then
    ([], FOCResult.skippedMultiEmail)
  else
    let createCall := RemoteCall.createUser email u.first_name u.last_name
      (if passwordProvided u then some (u.password_digest.getD "") else none)
      (if passwordProvided u then some "bcrypt" else none)
    match remote.createResult with
    | RemoteResult.rateLimited r => ([createCall], FOCResult.throttle r)
    | RemoteResult.ok createdId =>
        let v := verifyStep u mode remote createdId
        match v.2 with
        | some r => ([createCall] ++ v.1, FOCResult.throttle r)
        | none => ([createCall] ++ v.1, FOCResult.user createdId)
    | RemoteResult.err _ =>
        let listCall := RemoteCall.listUsers (jsToLower email)
        match remote.listResult with
        | RemoteResult.rateLimited r => ([createCall, listCall], FOCResult.throttle r)
        | RemoteResult.err m => ([createCall, listCall], FOCResult.raised m)
        | RemoteResult.ok ids =>
            if ids.length = 1 then
              let existingId := ids.headD ""
              let p := passwordUpdateStep u remote existingId
              match p.2 with
              | some r => ([createCall, listCall] ++ p.1, FOCResult.throttle r)
              | none =>
                  let v := verifyStep u mode remote existingId
                  match v.2 with
                  | some r => ([createCall, listCall] ++ p.1 ++ v.1, FOCResult.throttle r)
                  | none => ([createCall, listCall] ++ p.1 ++ v.1, FOCResult.user existingId)
            else ([createCall, listCall], FOCResult.noUser)

/-- The spec's terminal per-record outcome, attributed by the driver: the
driver logs/record a success for a returned user, and a failure with message
`"Could not find or create user"` for both the multi-email skip and the
failed lookup (the skip is the distinct `Skipped` outcome of the spec's
taxonomy, but the driver books it as an error, see `finishUpdate`). -/
inductive Outcome
  | imported
  | skipped
  | failed (msg : String)
  deriving DecidableEq

/-- Terminal outcome of one record as classified by `processLine` and the
engine's task body: a returned user means imported, the skip and the missing
user both surface as `processLine = false`, which `main` records with message
`"Could not find or create user"`; a rate limit produces no outcome (the unit
is retried); any other exception is recorded with its own message. -/
def recordOutcome (u : ClerkExportedUser) (processMultiEmail : Bool)
    (mode : EmailVerifiedMode) (remote : RemoteBehavior) : Option Outcome :=
  match (findOrCreateUser u processMultiEmail mode remote).2 with
  | FOCResult.user _ => some Outcome.imported
  | FOCResult.skippedMultiEmail => some Outcome.skipped
  | FOCResult.noUser => some (Outcome.failed "Could not find or create user")
  | FOCResult.raised m => some (Outcome.failed m)
  | FOCResult.throttle _ => none

/-! ## CSV-row normalizer (`user-export-stream.ts`)

The row-oriented branch of the record source maps each CSV row (header-named
cells; a missing cell behaves like the empty string) to a
`ClerkExportedUser`. -/

/-- One CSV row of the Clerk export, by column name; absent cells are `""`. -/
structure CsvRow where
  id : String
  first_name : String
  last_name : String
  username : String
  primary_email_address : String
  verified_email_addresses : String
  unverified_email_addresses : String
  totp_secret : String
  password_digest : String
  password_hasher : String
  deriving DecidableEq

/-- `toNull` from `user-export-stream.ts`: trim, and turn the empty string
into `null`. -/
def toNull (value : String) : Option String :=
  let s := jsTrim value
  if s = "" then none else some s

/-- `splitList` from `user-export-stream.ts`: split a cell on `|`, `,` or `;`
(the regex also swallows following whitespace, which the subsequent `trim`
makes equivalent to this character-level split), trim each piece, and drop
empty pieces. -/
def splitList (value : String) : List String :=
  (((splitChars (fun c => c = '|' ∨ c = ',' ∨ c = ';') (jsTrim value)).map
    jsTrim).filter (fun s => s ≠ ""))

/-- Helper for `mergeEmails`: fold a list of emails into the accumulator,
dropping entries whose lowercase form was already seen, preserving order. -/
def addEmails : List String → List String → List String → List String × List String
  | seen, acc, [] => (seen, acc)
  | seen, acc, e :: es =>
      if jsToLower e ∈ seen then addEmails seen acc es
      else addEmails (jsToLower e :: seen) (acc ++ [e]) es

/-- `mergeEmails` from `user-export-stream.ts`: primary, then verified, then
unverified emails, de-duplicated case-insensitively keeping the first
occurrence, joined with `|`. -/
def mergeEmails (primary verified unverified : String) : String :=
  let r1 := addEmails [] [] (splitList primary)
  let r2 := addEmails r1.1 r1.2 (splitList verified)
  let r3 := addEmails r2.1 r2.2 (splitList unverified)
  String.intercalate "|" r3.2

/-- `mapCsvRowToUser` from `user-export-stream.ts`.  `primary_email_verified`
is set to whether the lowercased primary email appears in the lowercased
verified-set column, and left undefined when there is no primary email. -/
def mapCsvRowToUser (row : CsvRow) : ClerkExportedUser :=
  let primary := (toNull row.primary_email_address).map jsToLower
  let verifiedSet := (splitList row.verified_email_addresses).map jsToLower
  { id := row.id
    first_name := toNull row.first_name
    last_name := toNull row.last_name
    username := toNull row.username
    email_addresses := mergeEmails row.primary_email_address
      row.verified_email_addresses row.unverified_email_addresses
    phone_numbers := none
    totp_secret := toNull row.totp_secret
    password_digest := toNull row.password_digest
    password_hasher := toNull row.password_hasher
    primary_email_verified := primary.map (fun p => verifiedSet.contains p) }

/-! ## JSON record source (`userExportStream`, JSON branch)

The JSON branch feeds the file through `@streamparser/json`'s `JSONParser`.
The parser invokes `onValue` for every value at every depth, bottom-up and in
textual order, passing the value's key; the code pushes the value onto the
yield queue whenever `parseInt(key, 10)` is not `NaN`.  Array elements always
have numeric keys; object members pass the filter iff their field name starts
(after optional whitespace and sign) with a digit. -/

/-- A decoded JSON value. -/
inductive Json
  | null
  | bool (b : Bool)
  | num (n : Int)
  | str (s : String)
  | arr (elems : List Json)
  | obj (fields : List (String × Json))

/-- Whether `parseInt(key, 10)` is not `NaN` for a string key: after leading
whitespace and an optional sign there is a digit. -/
def keyIsNumeric (s : String) : Bool :=
  match (jsTrim s).data with
  | [] => false
  | c :: rest =>
      if c = '+' ∨ c = '-' then
        match rest with
        | [] => false
        | d :: _ => d.isDigit
      else c.isDigit

mutual
/-- Values strictly inside `j` that the `onValue` filter pushes onto the
queue, in the order the parser completes them (children before parents,
textual order otherwise). -/
def innerEmitted : Json → List Json
  | Json.arr xs => innerEmittedArr xs
  | Json.obj fs => innerEmittedObj fs
  | _ => []

/-- Emission for the elements of an array: each element's own inner values,
then the element itself (array indices are numeric keys, so every element is
pushed). -/
def innerEmittedArr : List Json → List Json
  | [] => []
  | e :: es => innerEmitted e ++ [e] ++ innerEmittedArr es

/-- Emission for the members of an object: each member value's inner values,
then the value itself iff its field name passes the `parseInt` filter. -/
def innerEmittedObj : List (String × Json) → List Json
  | [] => []
  | (k, v) :: fs =>
      innerEmitted v ++ (if keyIsNumeric k then [v] else []) ++ innerEmittedObj fs
end

/-- The sequence of values the JSON branch of `userExportStream` yields for a
decoded document: the root itself has key `undefined` and is never pushed;
everything below it goes through the numeric-key filter.  The consumer loop
drains the queue in order and stops only once the `end` event has set `done`,
so the yielded sequence is exactly the queue contents in push order. -/
def userExportStreamYields (root : Json) : List Json :=
  innerEmitted root

/-! ## Dispatch engine (`main` in `index.ts`, on `p-queue`)

`main` drives a `p-queue` with `concurrency = MAX_CONCURRENT_USER_IMPORTS`.
The admitter loop awaits `queue.onSizeLessThan(MAX_CONCURRENT_USER_IMPORTS)`
(`size` counts queued-not-yet-started tasks, `pending` counts running ones),
assigns `recordNumber = recordCount + 1`, increments `recordCount`, and
enqueues the record's task.  A queued task starts when the queue is not
paused and fewer than `concurrency` tasks are running.  A finished task is
classified by the task body and its `.catch` handler; a
`RateLimitExceededException` pauses the queue, re-enqueues the same unit,
sleeps `retryAfter + 1` seconds and restarts the queue.

The behaviour of one attempt of one record (parse failure, import success,
`processLine` returning false, an unexpected exception, or a rate limit) is
abstracted into a script of attempt results carried by the unit; the engine
is a small-step transition relation over the resulting state, with the
interleaving of concurrent completions left nondeterministic. -/

/-- `MAX_CONCURRENT_USER_IMPORTS` from `index.ts`. -/
def MAX_CONCURRENT_USER_IMPORTS : Nat := 10

/-- `DEFAULT_RETRY_AFTER` from `index.ts`, used when the
`RateLimitExceededException` carries no `retryAfter`. -/
def DEFAULT_RETRY_AFTER : Nat := 10

/-- How one attempt of one record's task resolves, as classified by the task
body and its `.catch` handler in `main`. -/
inductive AttemptResult
  | parseErr (msg : String)
  | success
  | skipMulti
  | notFound
  | thrown (msg : String)
  | throttled (retryAfter : Option Nat)
  deriving DecidableEq

/-- One unit of work: the 1-based record number and the remaining script of
attempt results (head = next attempt). -/
structure DispatchUnit where
  rn : Nat
  script : List AttemptResult
  deriving DecidableEq

/-- One entry of the in-memory `failures` array (record number and error
message; the id/email/timestamp columns are modelled with the report writer
below). -/
structure Failure where
  recordNumber : Nat
  errorMessage : String
  deriving DecidableEq

/-- The engine state: records not yet admitted, the counters of `main`, the
queue backlog (`size`) and running set (`pending`) of the `p-queue`, the
paused flag, pending `sleep` wake-ups (seconds), the `failures` array, the
ghost list of terminal outcomes in recording order, and whether an unhandled
promise rejection has been raised (`crashed`): the `.catch` handler for a
non-rate-limit error rethrows into the promise chain returned by
`enqueueTask`, which nothing awaits, and Node's default unhandled-rejection
policy then terminates the process, so a crashed run cannot complete. -/
structure EngineState where
  remaining : List (List AttemptResult)
  recordCount : Nat
  waiting : List DispatchUnit
  running : List DispatchUnit
  paused : Bool
  sleepers : List Nat
  completedCount : Nat
  errorCount : Nat
  warningCount : Nat
  failures : List Failure
  outcomes : List (Nat × Outcome)
  crashed : Bool
  deriving DecidableEq

/-- Initial state for a given input. -/
def engInit (scripts : List (List AttemptResult)) : EngineState :=
  { remaining := scripts
    recordCount := 0
    waiting := []
    running := []
    paused := false
    sleepers := []
    completedCount := 0
    errorCount := 0
    warningCount := 0
    failures := []
    outcomes := []
    crashed := false }

/-- Effect of a task attempt resolving with result `a` for record `rn`
(remaining script `rest`), with `running2` the running units left:  parse
errors and `processLine` false (skip or missing user) add a failure and bump
`errorCount`; success bumps `completedCount`; an unexpected exception is
first recorded the same way by the `.catch` handler, which then rethrows it
into the un-awaited promise chain — an unhandled rejection that marks the
process crashed; a rate limit records no outcome, bumps `warningCount`,
pauses the queue, re-enqueues the same record number once, and schedules a
wake-up after `(retryAfter ?? DEFAULT_RETRY_AFTER) + 1` seconds. -/
def finishUpdate (s : EngineState) (rn : Nat) (rest : List AttemptResult)
    (a : AttemptResult) (running2 : List DispatchUnit) : EngineState :=
  match a with
  | AttemptResult.parseErr m =>
      { s with running := running2
               errorCount := s.errorCount + 1
               failures := s.failures ++ [⟨rn, m⟩]
               outcomes := s.outcomes ++ [(rn, Outcome.failed m)] }
  | AttemptResult.success =>
      { s with running := running2
               completedCount := s.completedCount + 1
               outcomes := s.outcomes ++ [(rn, Outcome.imported)] }
  | AttemptResult.skipMulti =>
      { s with running := running2
               errorCount := s.errorCount + 1
               failures := s.failures ++ [⟨rn, "Could not find or create user"⟩]
               outcomes := s.outcomes ++ [(rn, Outcome.skipped)] }
  | AttemptResult.notFound =>
      { s with running := running2
               errorCount := s.errorCount + 1
               failures := s.failures ++ [⟨rn, "Could not find or create user"⟩]
               outcomes := s.outcomes ++ [(rn, Outcome.failed "Could not find or create user")] }
  | AttemptResult.thrown m =>
      { s with running := running2
               errorCount := s.errorCount + 1
               failures := s.failures ++ [⟨rn, m⟩]
               outcomes := s.outcomes ++ [(rn, Outcome.failed m)]
               crashed := true }
  | AttemptResult.throttled r =>
      { s with running := running2
               warningCount := s.warningCount + 1
               paused := true
               waiting := s.waiting ++ [⟨rn, rest⟩]
               sleepers := s.sleepers ++ [r.getD DEFAULT_RETRY_AFTER + 1] }

/-- Small-step transition relation of the dispatch engine. -/
inductive Step : EngineState → EngineState → Prop
  /-- The admitter loop takes the next record: only when the queue backlog is
  below `MAX_CONCURRENT_USER_IMPORTS` (`await queue.onSizeLessThan(...)`); it
  assigns the next 1-based record number and enqueues the task.  (The loop is
  not gated on `paused`.) -/
  | pull {s : EngineState} {scr : List AttemptResult} {rest : List (List AttemptResult)}
      (hrem : s.remaining = scr :: rest)
      (hsize : s.waiting.length < MAX_CONCURRENT_USER_IMPORTS) :
      Step s { s with remaining := rest
                      recordCount := s.recordCount + 1
                      waiting := s.waiting ++ [⟨s.recordCount + 1, scr⟩] }
  /-- The queue starts a queued task: only when not paused and fewer than
  `concurrency` tasks are running. -/
  | start {s : EngineState} {u : DispatchUnit} {ws : List DispatchUnit}
      (hw : s.waiting = u :: ws) (hp : s.paused = false)
      (hconc : s.running.length < MAX_CONCURRENT_USER_IMPORTS) :
      Step s { s with waiting := ws
                      running := s.running ++ [u] }
  /-- A running task resolves with the next result of its script. -/
  | finish (l1 l2 : List DispatchUnit) {s : EngineState} (u : DispatchUnit)
      (a : AttemptResult) (rest : List AttemptResult)
      (hrun : s.running = l1 ++ u :: l2) (hscr : u.script = a :: rest) :
      Step s (finishUpdate s u.rn rest a (l1 ++ l2))
  /-- A throttle handler's `sleep` elapses and it calls `queue.start()`. -/
  | wake (l1 l2 : List Nat) {s : EngineState} {d : Nat}
      (hs : s.sleepers = l1 ++ d :: l2) :
      Step s { s with sleepers := l1 ++ l2
                      paused := false }

/-- States reachable from `engInit scripts`. -/
inductive Reachable (scripts : List (List AttemptResult)) : EngineState → Prop
  | init : Reachable scripts (engInit scripts)
  | step {s t : EngineState} : Reachable scripts s → Step s t → Reachable scripts t

/-- Zero or more engine steps, from an arbitrary state. -/
inductive Steps : EngineState → EngineState → Prop
  | refl (s : EngineState) : Steps s s
  | tail {s t v : EngineState} : Steps s t → Step t v → Steps s v

/-- The run is done (`queue.onIdle()` resolved after the source was
exhausted and `main` went on to print the summary): nothing left to admit,
nothing queued, nothing running, and no unhandled rejection has aborted the
process. -/
def EngineDone (s : EngineState) : Prop :=
  s.remaining = [] ∧ s.waiting = [] ∧ s.running = [] ∧ s.crashed = false

instance (s : EngineState) : Decidable (EngineDone s) := by
  unfold EngineDone; infer_instance

/-- Number of records whose terminal outcome is the spec's `Skipped`. -/
def skippedOutcomeCount (s : EngineState) : Nat :=
  (s.outcomes.filter (fun p => p.2 == Outcome.skipped)).length

/-- Records whose terminal outcome is not `Imported` (these are exactly the
ones `main` pushes onto `failures`). -/
def notImported (p : Nat × Outcome) : Bool :=
  !(p.2 == Outcome.imported)

/-! ## Error-report writer (`--errors-out`, CSV branch of `main`) -/

/-- One entry of the detailed `failures` array with all five reported
fields. -/
structure FailureDetail where
  recordNumber : Nat
  clerkUserId : Option String
  email : Option String
  errorMessage : String
  timestamp : String
  deriving DecidableEq

/-- `escapeCsvField` from `main`: stringify, double the double quotes, wrap
in double quotes. -/
def escapeCsvField (s : String) : String :=
  "\"" ++ String.mk (s.data.flatMap (fun c => if c = '"' then ['"', '"'] else [c])) ++ "\""

/-- The header line of the CSV error report. -/
def errorReportHeader : String :=
  String.intercalate "," ["recordNumber", "clerkUserId", "email", "errorMessage", "timestamp"]

/-- One CSV row of the error report, fields in header order, absent id/email
as the empty string. -/
def csvRowOf (f : FailureDetail) : String :=
  String.intercalate ","
    [escapeCsvField (toString f.recordNumber)
     , escapeCsvField (f.clerkUserId.getD "")
     , escapeCsvField (f.email.getD "")
     , escapeCsvField f.errorMessage
     , escapeCsvField f.timestamp]

/-- The lines of the CSV error report as written by `main`: the header then
one row per entry of `failures`, in the array's order (the file is their
`"\n"`-join). -/
def buildErrorReportCsv (fs : List FailureDetail) : List String :=
  errorReportHeader :: fs.map csvRowOf

/-- A remote call transmits the password only with hash type `"bcrypt"`:
`createUser` either carries no hash or carries type `"bcrypt"`; the password
update always carries `"bcrypt"`; other calls carry no password. -/
def callPasswordBcrypt : RemoteCall → Bool
  | RemoteCall.createUser _ _ _ ph pht => ph.isNone || pht == some "bcrypt"
  | RemoteCall.updateUserPassword _ _ pht => pht == "bcrypt"
  | _ => true

/-! ## Concrete runs used as counterexamples and witnesses -/

/-- Input with a single record that is skipped for having several emails
while multi-email processing is off. -/
def c1Scripts : List (List AttemptResult) := [[AttemptResult.skipMulti]]

/-- Final state of the `c1Scripts` run. -/
def c1Final : EngineState :=
  { remaining := []
    recordCount := 1
    waiting := []
    running := []
    paused := false
    sleepers := []
    completedCount := 0
    errorCount := 1
    warningCount := 0
    failures := [⟨1, "Could not find or create user"⟩]
    outcomes := [(1, Outcome.skipped)]
    crashed := false }

/-- Input with a single successfully imported record. -/
def c1wScripts : List (List AttemptResult) := [[AttemptResult.success]]

/-- Final state of the `c1wScripts` run. -/
def c1wFinal : EngineState :=
  { remaining := []
    recordCount := 1
    waiting := []
    running := []
    paused := false
    sleepers := []
    completedCount := 1
    errorCount := 0
    warningCount := 0
    failures := []
    outcomes := [(1, Outcome.imported)]
    crashed := false }

/-- A script that never resolves within the trace under consideration. -/
def uScrSuccess : List AttemptResult := [AttemptResult.success]

/-- Eleven one-attempt records. -/
def c7Scripts : List (List AttemptResult) := List.replicate 11 uScrSuccess

/-- Reachable state of the `c7Scripts` run with ten units running, an empty
queue backlog, and one record not yet admitted. -/
def c7Ten : EngineState :=
  { remaining := [uScrSuccess]
    recordCount := 10
    waiting := []
    running := [⟨1, uScrSuccess⟩, ⟨2, uScrSuccess⟩, ⟨3, uScrSuccess⟩, ⟨4, uScrSuccess⟩,
      ⟨5, uScrSuccess⟩, ⟨6, uScrSuccess⟩, ⟨7, uScrSuccess⟩, ⟨8, uScrSuccess⟩,
      ⟨9, uScrSuccess⟩, ⟨10, uScrSuccess⟩]
    paused := false
    sleepers := []
    completedCount := 0
    errorCount := 0
    warningCount := 0
    failures := []
    outcomes := []
    crashed := false }

/-- Successor of `c7Ten` by the admitter pulling record 11. -/
def c7Eleven : EngineState :=
  { c7Ten with remaining := []
               recordCount := 11
               waiting := [⟨11, uScrSuccess⟩] }

/-- Successor state of a unit whose attempt raised
`RateLimitExceededException` with `retryAfter = k` (the `.catch` handler of
`enqueueTask`). -/
def throttleNext (s : EngineState) (u : DispatchUnit) (k : Nat)
    (rest : List AttemptResult) (l1 l2 : List DispatchUnit) : EngineState :=
  finishUpdate s u.rn rest (AttemptResult.throttled (some k)) (l1 ++ l2)

/-- Successor state of a unit whose attempt raised an unexpected
(non-rate-limit) exception with message `m`. -/
def thrownNext (s : EngineState) (u : DispatchUnit) (m : String)
    (rest : List AttemptResult) (l1 l2 : List DispatchUnit) : EngineState :=
  finishUpdate s u.rn rest (AttemptResult.thrown m) (l1 ++ l2)

/-- Input with two records that both fail the lookup (`processLine` returns
false, the in-task path that records the failure without rethrowing). -/
def c5Scripts : List (List AttemptResult) :=
  [[AttemptResult.notFound], [AttemptResult.notFound]]

/-- Final state of a `c5Scripts` run in which record 2's unit completes
before record 1's; no handler rethrew, so the run reaches `Done` and the
report is written. -/
def c5Final : EngineState :=
  { remaining := []
    recordCount := 2
    waiting := []
    running := []
    paused := false
    sleepers := []
    completedCount := 0
    errorCount := 2
    warningCount := 0
    failures := [⟨2, "Could not find or create user"⟩,
                 ⟨1, "Could not find or create user"⟩]
    outcomes := [(2, Outcome.failed "Could not find or create user"),
                 (1, Outcome.failed "Could not find or create user")]
    crashed := false }

/-- The five-field failure entries of the `c5Final` run, in the order `main`
pushed them. -/
def c5Details : List FailureDetail :=
  [⟨2, some "u2", some "b@y.com", "Could not find or create user", "t2"⟩,
   ⟨1, some "u1", some "a@x.com", "Could not find or create user", "t1"⟩]

/-- A one-running-unit state whose unit's first attempt rate-limits with
`retryAfter = 3`. -/
def c2Start : EngineState :=
  { remaining := []
    recordCount := 1
    waiting := []
    running := [⟨1, [AttemptResult.throttled (some 3), AttemptResult.success]⟩]
    paused := false
    sleepers := []
    completedCount := 0
    errorCount := 0
    warningCount := 0
    failures := []
    outcomes := []
    crashed := false }

/-- The single running unit of `c2Start`. -/
def c2Unit : DispatchUnit :=
  ⟨1, [AttemptResult.throttled (some 3), AttemptResult.success]⟩

/-- A state with two in-flight units in which record 1's attempt raises an
unexpected (non-rate-limit) error while record 2 is still running. -/
def c8Start : EngineState :=
  { remaining := []
    recordCount := 2
    waiting := []
    running := [⟨1, [AttemptResult.thrown "boom"]⟩, ⟨2, [AttemptResult.success]⟩]
    paused := false
    sleepers := []
    completedCount := 0
    errorCount := 0
    warningCount := 0
    failures := []
    outcomes := []
    crashed := false }

/-- The state after record 1's unit of `c8Start` raises its unexpected
error: the failure is recorded, then the handler's rethrow leaves the
process crashed. -/
def c8After : EngineState :=
  thrownNext c8Start ⟨1, [AttemptResult.thrown "boom"]⟩ "boom" [] []
    [⟨2, [AttemptResult.success]⟩]

/-- First element of the C6 failing input: a plain user object. -/
def c6U1 : Json := Json.obj [("id", Json.str "u1")]

/-- Second element of the C6 failing input: a user object whose metadata
holds a copy of the first element under the numeric key `"1"`. -/
def c6U2 : Json :=
  Json.obj [("id", Json.str "u2"),
            ("meta", Json.obj [("1", Json.obj [("id", Json.str "u1")])])]

/-- The C6 failing input document: a two-element array of objects. -/
def c6Input : Json := Json.arr [c6U1, c6U2]

/-- A record with two pipe-separated emails. -/
def c3User : ClerkExportedUser :=
  { id := "user_a"
    first_name := some "Ada"
    last_name := none
    username := none
    email_addresses := "a@x.com|b@y.com"
    phone_numbers := none
    totp_secret := none
    password_digest := none
    password_hasher := none
    primary_email_verified := none }

/-- A remote service that answers every call successfully. -/
def cRemoteOk : RemoteBehavior :=
  { createResult := RemoteResult.ok "user_new"
    listResult := RemoteResult.ok []
    updatePasswordResult := RemoteResult.ok ()
    updateVerifyResult := RemoteResult.ok () }

/-- A CSV row whose primary email appears (case-insensitively) in the
verified-emails column. -/
def c4Row : CsvRow :=
  { id := "u1"
    first_name := ""
    last_name := ""
    username := ""
    primary_email_address := "A@x.com"
    verified_email_addresses := "a@X.com"
    unverified_email_addresses := ""
    totp_secret := ""
    password_digest := ""
    password_hasher := "" }

/-- A record with a single email. -/
def c9User : ClerkExportedUser :=
  { id := "user_b"
    first_name := none
    last_name := none
    username := none
    email_addresses := "A@x.com"
    phone_numbers := none
    totp_secret := none
    password_digest := some "digest1"
    password_hasher := some "bcrypt"
    primary_email_verified := none }

/-- A remote service on which `createUser` fails for a non-throttling reason
and the email lookup finds exactly one existing user. -/
def c9Remote : RemoteBehavior :=
  { createResult := RemoteResult.err "email already taken"
    listResult := RemoteResult.ok ["user_123"]
    updatePasswordResult := RemoteResult.ok ()
    updateVerifyResult := RemoteResult.ok () }

/-! ## Helper lemmas -/

/-- Run invariant of the dispatch engine, by induction over reachability:
the two summary counters partition the recorded outcomes; at most
`MAX_CONCURRENT_USER_IMPORTS` units run at once; the failure entries are
exactly the non-imported outcomes in recording order; and the multiset of
record numbers of the outcomes, the queued units and the running units is
exactly `{1, ..., recordCount}`. -/
theorem engine_inv {scripts : List (List AttemptResult)} {s : EngineState}
    (h : Reachable scripts s) :
    s.completedCount + s.errorCount = s.outcomes.length ∧
    s.running.length ≤ MAX_CONCURRENT_USER_IMPORTS ∧
    s.failures.map Failure.recordNumber = (s.outcomes.filter notImported).map Prod.fst ∧
    ((s.outcomes.map Prod.fst : List Nat) : Multiset Nat)
      + ((s.waiting.map DispatchUnit.rn : List Nat) : Multiset Nat)
      + ((s.running.map DispatchUnit.rn : List Nat) : Multiset Nat)
      = ((List.range' 1 s.recordCount : List Nat) : Multiset Nat) := by
  induction h with
  | init => exact ⟨rfl, by simp [engInit], rfl, by simp [engInit]⟩
  | @step s t hr hst ih =>
      obtain ⟨ih1, ih2, ih3, ih4⟩ := ih
      cases hst with
      | pull hrem hsize =>
          refine ⟨by simpa using ih1, by simpa using ih2, by simpa using ih3, ?_⟩
          simp only [List.map_append, List.map_cons, List.map_nil]
          rw [List.range'_concat]
          have e1 : 1 + 1 * s.recordCount = s.recordCount + 1 := by omega
          rw [e1]
          simp only [← Multiset.coe_add, ← Multiset.cons_coe, ← Multiset.singleton_add,
            Multiset.coe_nil]
          rw [← ih4]
          abel
      | start hw hp hconc =>
          refine ⟨by simpa using ih1, ?_, by simpa using ih3, ?_⟩
          · simp only [List.length_append]
            simp
            omega
          · rw [hw] at ih4
            simp only [List.map_append, List.map_cons, List.map_nil]
            simp only [List.map_cons] at ih4
            simp only [← Multiset.coe_add, ← Multiset.cons_coe, ← Multiset.singleton_add,
              Multiset.coe_nil] at ih4 ⊢
            rw [← ih4]
            abel
      | finish l1 l2 u a rest hrun hscr =>
          have hlen : s.running.length = l1.length + 1 + l2.length := by
            simp [hrun]; omega
          rw [hrun] at ih4
          cases a with
          | parseErr m =>
              refine ⟨?_, ?_, ?_, ?_⟩
              · simp only [finishUpdate]
                simp [List.length_append]; omega
              · simp only [finishUpdate]
                simp [List.length_append]; omega
              · simp only [finishUpdate]
                simp [List.filter_append, notImported, ih3]
              · simp only [finishUpdate]
                simp only [List.map_append, List.map_cons, List.map_nil]
                simp only [List.map_append, List.map_cons] at ih4
                simp only [← Multiset.coe_add, ← Multiset.cons_coe, ← Multiset.singleton_add,
                  Multiset.coe_nil] at ih4 ⊢
                rw [← ih4]
                abel
          | success =>
              refine ⟨?_, ?_, ?_, ?_⟩
              · simp only [finishUpdate]
                simp [List.length_append]; omega
              · simp only [finishUpdate]
                simp [List.length_append]; omega
              · simp only [finishUpdate]
                simp [List.filter_append, notImported, ih3]
              · simp only [finishUpdate]
                simp only [List.map_append, List.map_cons, List.map_nil]
                simp only [List.map_append, List.map_cons] at ih4
                simp only [← Multiset.coe_add, ← Multiset.cons_coe, ← Multiset.singleton_add,
                  Multiset.coe_nil] at ih4 ⊢
                rw [← ih4]
                abel
          | skipMulti =>
              refine ⟨?_, ?_, ?_, ?_⟩
              · simp only [finishUpdate]
                simp [List.length_append]; omega
              · simp only [finishUpdate]
                simp [List.length_append]; omega
              · simp only [finishUpdate]
                simp [List.filter_append, notImported, ih3]
              · simp only [finishUpdate]
                simp only [List.map_append, List.map_cons, List.map_nil]
                simp only [List.map_append, List.map_cons] at ih4
                simp only [← Multiset.coe_add, ← Multiset.cons_coe, ← Multiset.singleton_add,
                  Multiset.coe_nil] at ih4 ⊢
                rw [← ih4]
                abel
          | notFound =>
              refine ⟨?_, ?_, ?_, ?_⟩
              · simp only [finishUpdate]
                simp [List.length_append]; omega
              · simp only [finishUpdate]
                simp [List.length_append]; omega
              · simp only [finishUpdate]
                simp [List.filter_append, notImported, ih3]
              · simp only [finishUpdate]
                simp only [List.map_append, List.map_cons, List.map_nil]
                simp only [List.map_append, List.map_cons] at ih4
                simp only [← Multiset.coe_add, ← Multiset.cons_coe, ← Multiset.singleton_add,
                  Multiset.coe_nil] at ih4 ⊢
                rw [← ih4]
                abel
          | thrown m =>
              refine ⟨?_, ?_, ?_, ?_⟩
              · simp only [finishUpdate]
                simp [List.length_append]; omega
              · simp only [finishUpdate]
                simp [List.length_append]; omega
              · simp only [finishUpdate]
                simp [List.filter_append, notImported, ih3]
              · simp only [finishUpdate]
                simp only [List.map_append, List.map_cons, List.map_nil]
                simp only [List.map_append, List.map_cons] at ih4
                simp only [← Multiset.coe_add, ← Multiset.cons_coe, ← Multiset.singleton_add,
                  Multiset.coe_nil] at ih4 ⊢
                rw [← ih4]
                abel
          | throttled r =>
              refine ⟨?_, ?_, ?_, ?_⟩
              · simp only [finishUpdate]
                simpa using ih1
              · simp only [finishUpdate]
                simp [List.length_append]; omega
              · simp only [finishUpdate]
                simpa using ih3
              · simp only [finishUpdate]
                simp only [List.map_append, List.map_cons, List.map_nil]
                simp only [List.map_append, List.map_cons] at ih4
                simp only [← Multiset.coe_add, ← Multiset.cons_coe, ← Multiset.singleton_add,
                  Multiset.coe_nil] at ih4 ⊢
                rw [← ih4]
                abel
      | wake l1 l2 hs =>
          exact ⟨by simpa using ih1, by simpa using ih2, by simpa using ih3, by simpa using ih4⟩

/-- While the queue is paused no queued task starts: every step from a paused
state leaves the number of running tasks unchanged or lower. -/
theorem paused_no_start {s t : EngineState} (hp : s.paused = true) (hst : Step s t) :
    t.running.length ≤ s.running.length := by
  cases hst with
  | pull hrem hsize => simp
  | start hw hp2 hconc => rw [hp] at hp2; cases hp2
  | finish l1 l2 u a rest hrun hscr =>
      cases a <;> simp [finishUpdate, hrun, List.length_append]
  | wake l1 l2 hs => simp

/-- No step clears the crashed flag: once the unhandled rejection has been
raised, it stays raised. -/
theorem step_crashed {s t : EngineState} (hst : Step s t) (hc : s.crashed = true) :
    t.crashed = true := by
  cases hst with
  | pull hrem hsize => simpa using hc
  | start hw hp hconc => simpa using hc
  | finish l1 l2 u a rest hrun hscr => cases a <;> simp [finishUpdate, hc]
  | wake l1 l2 hs => simpa using hc

/-- Crash stickiness along any number of steps. -/
theorem steps_crashed {s t : EngineState} (hst : Steps s t) (hc : s.crashed = true) :
    t.crashed = true := by
  induction hst with
  | refl => exact hc
  | tail hs hstep ih => exact step_crashed hstep ih

/-! ## Claim theorems -/

/-- C1 counterexample: a finished run with one multi-email skipped record has
`total = 1` but `imported = 0`, `errors = 1` and one `Skipped` outcome, so the
claimed identity `total == imported + skipped + errors` fails: the summary
counts the skip inside `errors` and reports no separate skipped count. -/
theorem c1_counterexample :
    Reachable c1Scripts c1Final ∧ EngineDone c1Final ∧
    c1Final.completedCount = 0 ∧ c1Final.errorCount = 1 ∧
    skippedOutcomeCount c1Final = 1 ∧
    ¬ c1Final.recordCount
        = c1Final.completedCount + skippedOutcomeCount c1Final + c1Final.errorCount := by
  refine ⟨?_, by decide, by decide, by decide, by decide, by decide⟩
  have h0 : Reachable c1Scripts (engInit c1Scripts) := Reachable.init
  have h1 := h0.step (Step.pull rfl (by decide))
  have h2 := h1.step (Step.start rfl rfl (by decide))
  have h3 := h2.step (Step.finish [] [] _ _ _ rfl rfl)
  exact h3

/-- C1 (amended): for every run that reaches `Done`, the reported counts
satisfy `total = imported + errors` (the summary reports no separate skipped
count: a skipped record is booked in `errors`), and every `recordNumber` in
`[1, total]` is attributed exactly one terminal outcome — none lost,
duplicated, or counted twice, regardless of completion order. -/
theorem c1_done_partition {scripts : List (List AttemptResult)} {s : EngineState}
    (h : Reachable scripts s) (hdone : EngineDone s) :
    s.recordCount = s.completedCount + s.errorCount ∧
    ((s.outcomes.map Prod.fst : List Nat) : Multiset Nat)
      = ((List.range' 1 s.recordCount : List Nat) : Multiset Nat) ∧
    ∀ n : Nat, 1 ≤ n → n ≤ s.recordCount → (s.outcomes.map Prod.fst).count n = 1 := by
  obtain ⟨i1, -, -, i4⟩ := engine_inv h
  obtain ⟨-, hw, hr, -⟩ := hdone
  rw [hw, hr] at i4
  simp only [List.map_nil, Multiset.coe_nil, add_zero] at i4
  have hcard := congrArg Multiset.card i4
  simp only [Multiset.coe_card, List.length_map, List.length_range'] at hcard
  refine ⟨by omega, i4, ?_⟩
  intro n h1 h2
  have hcnt := congrArg (Multiset.count n) i4
  simp only [Multiset.coe_count] at hcnt
  rw [hcnt]
  exact List.count_eq_one_of_mem (List.nodup_range' ..) (List.mem_range'_1.mpr ⟨h1, by omega⟩)

/-- C1 witness: the amended identity evaluated on a one-record successful
run. -/
theorem c1_done_partition_witness :
    c1wFinal.recordCount = c1wFinal.completedCount + c1wFinal.errorCount ∧
    ((c1wFinal.outcomes.map Prod.fst : List Nat) : Multiset Nat)
      = ((List.range' 1 c1wFinal.recordCount : List Nat) : Multiset Nat) := by
  have h0 : Reachable c1wScripts (engInit c1wScripts) := Reachable.init
  have h1 := h0.step (Step.pull rfl (by decide))
  have h2 := h1.step (Step.start rfl rfl (by decide))
  have h3 := h2.step (Step.finish [] [] _ _ _ rfl rfl)
  have hd := c1_done_partition h3 (by decide)
  exact ⟨hd.1, hd.2.1⟩

/-- The state `c7Ten` is reachable: admit the first ten records, then start
all ten. -/
theorem c7Ten_reachable : Reachable c7Scripts c7Ten := by
  have h0 : Reachable c7Scripts (engInit c7Scripts) := Reachable.init
  have h1 := h0.step (Step.pull rfl (by decide))
  have h2 := h1.step (Step.pull rfl (by decide))
  have h3 := h2.step (Step.pull rfl (by decide))
  have h4 := h3.step (Step.pull rfl (by decide))
  have h5 := h4.step (Step.pull rfl (by decide))
  have h6 := h5.step (Step.pull rfl (by decide))
  have h7 := h6.step (Step.pull rfl (by decide))
  have h8 := h7.step (Step.pull rfl (by decide))
  have h9 := h8.step (Step.pull rfl (by decide))
  have h10 := h9.step (Step.pull rfl (by decide))
  have g1 := h10.step (Step.start rfl rfl (by decide))
  have g2 := g1.step (Step.start rfl rfl (by decide))
  have g3 := g2.step (Step.start rfl rfl (by decide))
  have g4 := g3.step (Step.start rfl rfl (by decide))
  have g5 := g4.step (Step.start rfl rfl (by decide))
  have g6 := g5.step (Step.start rfl rfl (by decide))
  have g7 := g6.step (Step.start rfl rfl (by decide))
  have g8 := g7.step (Step.start rfl rfl (by decide))
  have g9 := g8.step (Step.start rfl rfl (by decide))
  exact g9.step (Step.start rfl rfl (by decide))

/-- C7 counterexample: with eleven records the engine reaches a state with
ten units in flight and an empty backlog, and from there the admitter pulls
record 11 — an admission performed while `MAX_CONCURRENT_USER_IMPORTS` units
are in flight, because `onSizeLessThan` gates on the queue backlog, not on
the running count. -/
theorem c7_counterexample :
    Reachable c7Scripts c7Ten ∧
    c7Ten.running.length = MAX_CONCURRENT_USER_IMPORTS ∧
    Step c7Ten c7Eleven ∧
    c7Eleven.recordCount = c7Ten.recordCount + 1 :=
  ⟨c7Ten_reachable, by decide, Step.pull rfl (by decide), by decide⟩

/-- C7 (amended): the number of units executing concurrently never exceeds
the ceiling `MAX_CONCURRENT_USER_IMPORTS = 10`, and an admission step (one
that increments `recordCount`) requires the queue backlog of
admitted-but-unstarted units — not the running count — to be below the
ceiling. -/
theorem c7_concurrency_ceiling {scripts : List (List AttemptResult)} {s : EngineState}
    (h : Reachable scripts s) :
    s.running.length ≤ MAX_CONCURRENT_USER_IMPORTS ∧
    ∀ t : EngineState, Step s t → t.recordCount = s.recordCount + 1 →
      s.waiting.length < MAX_CONCURRENT_USER_IMPORTS := by
  refine ⟨(engine_inv h).2.1, ?_⟩
  intro t hst hrc
  cases hst with
  | pull hrem hsize => exact hsize
  | start hw hp hconc => simp at hrc
  | finish l1 l2 u a rest hrun hscr => cases a <;> simp [finishUpdate] at hrc
  | wake l1 l2 hs => simp at hrc

/-- C7 witness: the ceiling bound evaluated on the reachable state `c7Ten`. -/
theorem c7_concurrency_ceiling_witness :
    c7Ten.running.length ≤ MAX_CONCURRENT_USER_IMPORTS := by
  exact (c7_concurrency_ceiling c7Ten_reachable).1

/-- C2: when a running unit's attempt raises a throttle signal carrying
`retryAfterSeconds = k`, the engine takes the corresponding step; afterwards
the queue is paused (so no queued unit can start: every further step leaves
the running count non-increasing, while the remaining in-flight units can
still finish), exactly one retry unit with the same record number is
re-enqueued, a wake-up is scheduled after exactly `k + 1` seconds, and the
throttled attempt produced no outcome: outcomes, counts and failures are
unchanged (only `warningCount` grows).  The scheduled wake-up step resumes
admission (`paused = false`). -/
theorem c2_throttle_pause_retry (s : EngineState) (u : DispatchUnit) (k : Nat)
    (rest : List AttemptResult) (l1 l2 : List DispatchUnit)
    (hrun : s.running = l1 ++ u :: l2)
    (hscr : u.script = AttemptResult.throttled (some k) :: rest) :
    Step s (throttleNext s u k rest l1 l2) ∧
    (throttleNext s u k rest l1 l2).paused = true ∧
    (throttleNext s u k rest l1 l2).waiting = s.waiting ++ [⟨u.rn, rest⟩] ∧
    (throttleNext s u k rest l1 l2).running = l1 ++ l2 ∧
    (throttleNext s u k rest l1 l2).sleepers = s.sleepers ++ [k + 1] ∧
    (throttleNext s u k rest l1 l2).outcomes = s.outcomes ∧
    (throttleNext s u k rest l1 l2).completedCount = s.completedCount ∧
    (throttleNext s u k rest l1 l2).errorCount = s.errorCount ∧
    (throttleNext s u k rest l1 l2).failures = s.failures ∧
    (throttleNext s u k rest l1 l2).warningCount = s.warningCount + 1 ∧
    (∀ t2 : EngineState, Step (throttleNext s u k rest l1 l2) t2 →
      t2.running.length ≤ (throttleNext s u k rest l1 l2).running.length) ∧
    (∃ t2 : EngineState, Step (throttleNext s u k rest l1 l2) t2 ∧
      t2.paused = false ∧ t2.sleepers = s.sleepers) := by
  refine ⟨Step.finish l1 l2 u _ rest hrun hscr, rfl, rfl, rfl, rfl, rfl, rfl, rfl, rfl, rfl,
    ?_, ?_⟩
  · intro t2 hst
    exact paused_no_start rfl hst
  · refine ⟨_, Step.wake s.sleepers [] rfl, rfl, ?_⟩
    simp

/-- C2 witness: the concrete one-running-unit state `c2Start`, throttled
with `retryAfter = 3`, pauses, re-enqueues record 1, and schedules a
4-second wake-up. -/
theorem c2_throttle_pause_retry_witness :
    Step c2Start (throttleNext c2Start c2Unit 3 [AttemptResult.success] [] []) ∧
    (throttleNext c2Start c2Unit 3 [AttemptResult.success] [] []).paused = true ∧
    (throttleNext c2Start c2Unit 3 [AttemptResult.success] [] []).waiting
      = [⟨1, [AttemptResult.success]⟩] ∧
    (throttleNext c2Start c2Unit 3 [AttemptResult.success] [] []).sleepers = [4] := by
  have h := c2_throttle_pause_retry c2Start c2Unit 3 [AttemptResult.success] [] [] rfl rfl
  exact ⟨h.1, h.2.1, h.2.2.1, h.2.2.2.2.1⟩

/-- C8: at the failing input — record 1's reconciliation raises an
unexpected (non-throttle, non-classified) error while record 2 is still in
flight — the `.catch` handler does record the `Failed` outcome, the failure
entry and the error count for record 1 and leaves record 2 in flight, but it
then rethrows the error into the promise chain returned by `enqueueTask`,
which nothing awaits; the resulting unhandled rejection aborts the process,
and no continuation of the run can reach `Done` — the error halts the run
instead of being isolated to its unit, contradicting the claim. -/
theorem c8_crash_on_unexpected_error :
    Step c8Start c8After ∧
    c8After.outcomes = [(1, Outcome.failed "boom")] ∧
    c8After.failures = [⟨1, "boom"⟩] ∧
    c8After.errorCount = 1 ∧
    c8After.running = [⟨2, [AttemptResult.success]⟩] ∧
    c8After.crashed = true ∧
    ∀ v : EngineState, Steps c8After v → ¬ EngineDone v := by
  refine ⟨?_, by decide, by decide, by decide, by decide, by decide, ?_⟩
  · exact Step.finish [] [⟨2, [AttemptResult.success]⟩] ⟨1, [AttemptResult.thrown "boom"]⟩
      (AttemptResult.thrown "boom") [] rfl rfl
  · intro v hv hd
    have hcrash := steps_crashed hv (by decide)
    rw [hd.2.2.2] at hcrash
    cases hcrash

/-- C5 counterexample: in a finished run where two records fail the lookup
(`processLine` returns false — the in-task failure path, which records the
failure without rethrowing, so the run does reach `Done` and the report is
written) and record 2's unit completes before record 1's, the in-memory
failure list and hence the emitted CSV rows carry record numbers `[2, 1]` —
the code writes `failures` as-is, so the report is not sorted by
`recordNumber` ascending. -/
theorem c5_counterexample :
    Reachable c5Scripts c5Final ∧ EngineDone c5Final ∧
    c5Final.failures.map Failure.recordNumber = [2, 1] ∧
    c5Details.map FailureDetail.recordNumber = c5Final.failures.map Failure.recordNumber ∧
    buildErrorReportCsv c5Details
      = [errorReportHeader,
         csvRowOf ⟨2, some "u2", some "b@y.com", "Could not find or create user", "t2"⟩,
         csvRowOf ⟨1, some "u1", some "a@x.com", "Could not find or create user", "t1"⟩] ∧
    ¬ List.Sorted (fun a b => a ≤ b) (c5Details.map FailureDetail.recordNumber) := by
  refine ⟨?_, by decide, by decide, by decide, rfl, by decide⟩
  have h0 : Reachable c5Scripts (engInit c5Scripts) := Reachable.init
  have h1 := h0.step (Step.pull rfl (by decide))
  have h2 := h1.step (Step.pull rfl (by decide))
  have h3 := h2.step (Step.start rfl rfl (by decide))
  have h4 := h3.step (Step.start rfl rfl (by decide))
  have h5 := h4.step (Step.finish [⟨1, [AttemptResult.notFound]⟩] [] _ _ _ rfl rfl)
  have h6 := h5.step (Step.finish [] [] _ _ _ rfl rfl)
  exact h6

/-- C5 (amended): the error report has the five fields `recordNumber,
clerkUserId, email, errorMessage, timestamp` and exactly one row per entry of
the in-memory failure list, in the order the failures were recorded
(completion order, which is exactly the order of the non-imported outcomes);
the code does not sort it by `recordNumber`. -/
theorem c5_report_arrival_order {scripts : List (List AttemptResult)}
    {s : EngineState} (h : Reachable scripts s) (fs : List FailureDetail)
    (hfs : fs.map FailureDetail.recordNumber = s.failures.map Failure.recordNumber) :
    buildErrorReportCsv fs = errorReportHeader :: fs.map csvRowOf ∧
    fs.map FailureDetail.recordNumber = (s.outcomes.filter notImported).map Prod.fst :=
  ⟨rfl, hfs.trans (engine_inv h).2.2.1⟩

/-- C5 witness: the amended statement evaluated on the concrete `c5Scripts`
run and its detail list. -/
theorem c5_report_arrival_order_witness :
    buildErrorReportCsv c5Details = errorReportHeader :: c5Details.map csvRowOf ∧
    c5Details.map FailureDetail.recordNumber
      = (c5Final.outcomes.filter notImported).map Prod.fst := by
  have h0 : Reachable c5Scripts (engInit c5Scripts) := Reachable.init
  have h1 := h0.step (Step.pull rfl (by decide))
  have h2 := h1.step (Step.pull rfl (by decide))
  have h3 := h2.step (Step.start rfl rfl (by decide))
  have h4 := h3.step (Step.start rfl rfl (by decide))
  have h5 := h4.step (Step.finish [⟨1, [AttemptResult.notFound]⟩] [] _ _ _ rfl rfl)
  have h6 := h5.step (Step.finish [] [] _ _ _ rfl rfl)
  have hreach : Reachable c5Scripts c5Final := h6
  exact c5_report_arrival_order hreach c5Details (by decide)

/-- C6: on the failing input the JSON record source yields three values —
the copy of `{"id":"u1"}` nested under the numeric key inside element 2 is
emitted as well (the `onValue` callback filters only on
`parseInt(key, 10)`, not on depth), so the element `{"id":"u1"}` is yielded
twice and the yielded sequence is not the element sequence. -/
theorem c6_nested_value_duplicated :
    userExportStreamYields c6Input = [c6U1, c6U1, c6U2] ∧
    userExportStreamYields c6Input ≠ [c6U1, c6U2] := by
  have heq : userExportStreamYields c6Input = [c6U1, c6U1, c6U2] := rfl
  refine ⟨heq, ?_⟩
  rw [heq]
  intro hcontra
  have hlen := congrArg List.length hcontra
  simp at hlen

/-- If the remote password update never rate-limits, the password update step
never rethrows. -/
theorem passwordUpdateStep_no_throttle (u : ClerkExportedUser) (remote : RemoteBehavior)
    (w : String) (hpw : ∀ r, remote.updatePasswordResult ≠ RemoteResult.rateLimited r) :
    (passwordUpdateStep u remote w).2 = none := by
  unfold passwordUpdateStep
  by_cases hb : passwordProvided u
  · cases hres : remote.updatePasswordResult with
    | ok a => simp [hb, hres]
    | err m => simp [hb, hres]
    | rateLimited r => exact absurd hres (hpw r)
  · simp [hb]

/-- If the remote verification update never rate-limits, the verification
step never rethrows. -/
theorem verifyStep_no_throttle (u : ClerkExportedUser) (mode : EmailVerifiedMode)
    (remote : RemoteBehavior) (w : String)
    (hvf : ∀ r, remote.updateVerifyResult ≠ RemoteResult.rateLimited r) :
    (verifyStep u mode remote w).2 = none := by
  unfold verifyStep
  by_cases hb : shouldMarkEmailVerified u mode
  · cases hres : remote.updateVerifyResult with
    | ok a => simp [hb, hres]
    | err m => simp [hb, hres]
    | rateLimited r => exact absurd hres (hvf r)
  · simp [hb]

/-- Every call of the password update step carries hash type `"bcrypt"`. -/
theorem passwordUpdateStep_all_bcrypt (u : ClerkExportedUser) (remote : RemoteBehavior)
    (w : String) : (passwordUpdateStep u remote w).1.all callPasswordBcrypt = true := by
  unfold passwordUpdateStep
  by_cases hb : passwordProvided u
  · cases hres : remote.updatePasswordResult <;> simp [hb, hres, callPasswordBcrypt]
  · simp [hb]

/-- The verification step transmits no password. -/
theorem verifyStep_all_bcrypt (u : ClerkExportedUser) (mode : EmailVerifiedMode)
    (remote : RemoteBehavior) (w : String) :
    (verifyStep u mode remote w).1.all callPasswordBcrypt = true := by
  unfold verifyStep
  by_cases hb : shouldMarkEmailVerified u mode
  · cases hres : remote.updateVerifyResult <;> simp [hb, hres, callPasswordBcrypt]
  · simp [hb]

/-- C3: a record with more than one email while multi-email processing is
off yields the distinct skip result (the spec's `Skipped` outcome, not
`Imported` and not a lookup failure), and the reconciler makes no remote
call at all for it. -/
theorem c3_multi_email_skip (u : ClerkExportedUser) (pme : Bool)
    (mode : EmailVerifiedMode) (remote : RemoteBehavior)
    (hmulti : (splitPipe u.email_addresses).length > 1) (hpme : pme = false) :
    findOrCreateUser u pme mode remote = ([], FOCResult.skippedMultiEmail) ∧
    recordOutcome u pme mode remote = some Outcome.skipped := by
  subst hpme
  have hfoc : findOrCreateUser u false mode remote = ([], FOCResult.skippedMultiEmail) := by
    unfold findOrCreateUser
    simp [hmulti]
  exact ⟨hfoc, by unfold recordOutcome; rw [hfoc]⟩

/-- C3 witness: the skip evaluated on a concrete two-email record. -/
theorem c3_multi_email_skip_witness :
    findOrCreateUser c3User false EmailVerifiedMode.never cRemoteOk
      = ([], FOCResult.skippedMultiEmail) ∧
    recordOutcome c3User false EmailVerifiedMode.never cRemoteOk
      = some Outcome.skipped :=
  c3_multi_email_skip c3User false EmailVerifiedMode.never cRemoteOk (by decide) rfl

/-- C4: `always` marks every record's primary email verified and `never`
marks none; `from-csv` marks a CSV-mapped record verified iff the lowercased
primary email appears in the lowercased entries of the
`verified_email_addresses` column. -/
theorem c4_email_verified_modes (u : ClerkExportedUser) (row : CsvRow) (p : String)
    (hp : toNull row.primary_email_address = some p) :
    shouldMarkEmailVerified u EmailVerifiedMode.always = true ∧
    shouldMarkEmailVerified u EmailVerifiedMode.never = false ∧
    (shouldMarkEmailVerified (mapCsvRowToUser row) EmailVerifiedMode.fromCsv = true ↔
      jsToLower p ∈ (splitList row.verified_email_addresses).map jsToLower) := by
  refine ⟨rfl, rfl, ?_⟩
  unfold shouldMarkEmailVerified mapCsvRowToUser
  simp [hp, List.elem_iff]

/-- C4 witness: the three modes evaluated on a concrete CSV row whose
verified column contains the primary email up to case. -/
theorem c4_email_verified_modes_witness :
    shouldMarkEmailVerified (mapCsvRowToUser c4Row) EmailVerifiedMode.always = true ∧
    shouldMarkEmailVerified (mapCsvRowToUser c4Row) EmailVerifiedMode.never = false ∧
    (shouldMarkEmailVerified (mapCsvRowToUser c4Row) EmailVerifiedMode.fromCsv = true ↔
      jsToLower "A@x.com" ∈ (splitList c4Row.verified_email_addresses).map jsToLower) :=
  c4_email_verified_modes (mapCsvRowToUser c4Row) c4Row "A@x.com" (by decide)

/-- C9: when `createUser` fails for a non-throttling reason, the reconciler
looks up users by the lowercased primary email; with no rate limit on the
follow-up updates, exactly one match yields `Imported` with the existing
user's id (the password update and verification step soft-fail), while zero
or several matches yield the failure recorded as
`"Could not find or create user"`. -/
theorem c9_create_failure_lookup (u : ClerkExportedUser) (pme : Bool)
    (mode : EmailVerifiedMode) (remote : RemoteBehavior) (m : String) (ids : List String)
    (hmulti : ((splitPipe u.email_addresses).length > 1 && !pme) = false)
    (hcreate : remote.createResult = RemoteResult.err m)
    (hlist : remote.listResult = RemoteResult.ok ids)
    (hpw : ∀ r, remote.updatePasswordResult ≠ RemoteResult.rateLimited r)
    (hvf : ∀ r, remote.updateVerifyResult ≠ RemoteResult.rateLimited r) :
    RemoteCall.listUsers (jsToLower (primaryEmail u)) ∈ (findOrCreateUser u pme mode remote).1 ∧
    (∀ i : String, ids = [i] →
      (findOrCreateUser u pme mode remote).2 = FOCResult.user i ∧
      recordOutcome u pme mode remote = some Outcome.imported) ∧
    (ids.length ≠ 1 →
      (findOrCreateUser u pme mode remote).2 = FOCResult.noUser ∧
      recordOutcome u pme mode remote
        = some (Outcome.failed "Could not find or create user")) := by
  have hp2 : ∀ w, (passwordUpdateStep u remote w).2 = none :=
    fun w => passwordUpdateStep_no_throttle u remote w hpw
  have hv2 : ∀ w, (verifyStep u mode remote w).2 = none :=
    fun w => verifyStep_no_throttle u mode remote w hvf
  refine ⟨?_, ?_, ?_⟩
  · unfold findOrCreateUser primaryEmail
    by_cases hlen : ids.length = 1 <;>
      simp [hmulti, hcreate, hlist, hlen, hp2, hv2]
  · intro i hi
    subst hi
    constructor
    · unfold findOrCreateUser
      simp [hmulti, hcreate, hlist, hp2, hv2]
    · unfold recordOutcome findOrCreateUser
      simp [hmulti, hcreate, hlist, hp2, hv2]
  · intro hlen
    constructor
    · unfold findOrCreateUser
      simp [hmulti, hcreate, hlist, hlen]
    · unfold recordOutcome findOrCreateUser
      simp [hmulti, hcreate, hlist, hlen]

/-- C9 witness: on a concrete single-email record whose create fails and
whose lookup finds exactly `user_123`, the lookup call uses the lowercased
email and the outcome is `Imported` with the existing id. -/
theorem c9_create_failure_lookup_witness :
    RemoteCall.listUsers (jsToLower (primaryEmail c9User))
      ∈ (findOrCreateUser c9User false EmailVerifiedMode.never c9Remote).1 ∧
    (findOrCreateUser c9User false EmailVerifiedMode.never c9Remote).2
      = FOCResult.user "user_123" ∧
    recordOutcome c9User false EmailVerifiedMode.never c9Remote
      = some Outcome.imported := by
  have h := c9_create_failure_lookup c9User false EmailVerifiedMode.never c9Remote
    "email already taken" ["user_123"] (by decide) rfl rfl
    (by intro r h; cases h) (by intro r h; cases h)
  exact ⟨h.1, (h.2.1 "user_123" rfl).1, (h.2.1 "user_123" rfl).2⟩

/-- C10: every password-transmitting remote call of the reconciler (the
create and the password update on an existing user) passes hash type
`"bcrypt"` unconditionally, and the record's `password_hasher` field is never
consulted — changing it changes neither the calls nor the result. -/
theorem c10_bcrypt_unconditional (u : ClerkExportedUser) (pme : Bool)
    (mode : EmailVerifiedMode) (remote : RemoteBehavior) (hasher : Option String) :
    ((findOrCreateUser u pme mode remote).1.all callPasswordBcrypt) = true ∧
    findOrCreateUser { u with password_hasher := hasher } pme mode remote
      = findOrCreateUser u pme mode remote := by
  constructor
  · have hpc := passwordUpdateStep_all_bcrypt u remote
    have hvc := verifyStep_all_bcrypt u mode remote
    have hcc : ∀ e f l,
        callPasswordBcrypt (RemoteCall.createUser e f l
          (if passwordProvided u then some (u.password_digest.getD "") else none)
          (if passwordProvided u then some "bcrypt" else none)) = true := by
      intro e f l
      by_cases hb : passwordProvided u <;> simp [hb, callPasswordBcrypt]
    unfold findOrCreateUser
    by_cases hg : ((splitPipe u.email_addresses).length > 1 && !pme) = true
    · simp [hg]
    · simp only [Bool.not_eq_true] at hg
      cases hcr : remote.createResult with
      | rateLimited r => simp [hg, hcr, hcc]
      | ok createdId =>
          rcases hvres : (verifyStep u mode remote createdId).2 with - | r <;>
            simp [hg, hcr, hvres, hcc, hvc, callPasswordBcrypt]
      | err m2 =>
          cases hls : remote.listResult with
          | rateLimited r => simp [hg, hcr, hls, hcc, callPasswordBcrypt]
          | err m3 => simp [hg, hcr, hls, hcc, callPasswordBcrypt]
          | ok ids =>
              by_cases hlen : ids.length = 1
              · rcases hpres : (passwordUpdateStep u remote (ids.head?.getD "")).2 with - | r
                · rcases hvres : (verifyStep u mode remote (ids.head?.getD "")).2 with - | r2 <;>
                    simp [hg, hcr, hls, hlen, hpres, hvres, hcc, hpc, hvc, callPasswordBcrypt]
                · simp [hg, hcr, hls, hlen, hpres, hcc, hpc, callPasswordBcrypt]
              · simp [hg, hcr, hls, hlen, hcc, callPasswordBcrypt]
  · rfl
